import Mathlib

/-!
# Shallow embedding of the asgard-rust CRUD core

This file embeds the repository-adapter layer of the asgard-rust service
(`src/adapters/db/{users,products,orders}_repo.rs`), the application ports
(`src/application/ports.rs`), the service layer (`src/application/services.rs`)
and the health endpoint (`src/adapters/web/router.rs`) into Lean, and proves
the specification claims about them.

Modelling conventions:
* `Uuid` and `DateTime<Utc>` are modelled as `Nat` (only identity and ordering
  of timestamps matter for the claims).
* A Postgres table is a list of rows plus a clock `now` (the value the SQL
  `now()` returns during the statement) and a fresh-id counter `nextId`
  (the server-side id generator).
* `sqlx::Error` is the inductive `SqlxError`; its `Display` output (what
  `err.to_string()` produces) is `SqlxError.toMessage`.
* Fallible Rust paths return `Except RepoError α`; a Rust panic
  (e.g. `sqlx::Row::get` on an undecodable column) is modelled as `none`
  in an outer `Option`.
* The uniqueness constraints on `users.email` / `products.sku` and the
  foreign key `orders.user_id → users.id` live in the database schema
  (migrations are not part of `src/`); they are modelled from the spec's
  data-model section as storage-raised errors with the Postgres codes the
  adapters inspect (`23505` unique violation, `23503` fk violation).
-/

namespace Asgard

/-- Embeds `uuid::Uuid`, modelled as a natural number. -/
abbrev Uuid := Nat

/-- Embeds `chrono::DateTime<Utc>`, modelled as a natural number (ordering only). -/
abbrev Timestamp := Nat

/-- Embeds `sqlx::Error`, restricted to the shapes the adapters distinguish:
`RowNotFound`, `Database(db_err)` (with its optional SQLSTATE code and its
message), and a catch-all for every other variant. -/
inductive SqlxError where
  | rowNotFound
  | database (code : Option String) (message : String)
  | other (message : String)
deriving DecidableEq, Repr

/-- What `err.to_string()` yields on each `sqlx::Error` shape (sqlx's
`Display` impl prefixes database errors; the exact constant texts are
immaterial to the claims, which only need the message to be carried). -/
def SqlxError.toMessage : SqlxError → String
  | .rowNotFound =>
      "no rows returned by a query that expected to return at least one row"
  | .database _ m => "error returned from database: " ++ m
  | .other m => m

/-- Embeds `RepoError` from `src/application/ports.rs`. -/
inductive RepoError where
  | NotFound
  | Conflict
  | Unexpected (detail : String)
deriving DecidableEq, Repr

/-- Embeds `User` from `src/domain/models.rs`. -/
structure User where
  id : Uuid
  email : String
  name : String
  created_at : Timestamp
  updated_at : Timestamp
deriving DecidableEq, Repr

/-- Embeds `Product` from `src/domain/models.rs`. -/
structure Product where
  id : Uuid
  sku : String
  name : String
  price_cents : Int
  created_at : Timestamp
  updated_at : Timestamp
deriving DecidableEq, Repr

/-- Embeds `Order` from `src/domain/models.rs`. -/
structure Order where
  id : Uuid
  user_id : Uuid
  status : String
  total_cents : Int
  created_at : Timestamp
  updated_at : Timestamp
deriving DecidableEq, Repr

/-- Embeds `NewUser` from `src/application/ports.rs`. -/
structure NewUser where
  email : String
  name : String
deriving DecidableEq, Repr

/-- Embeds `UpdateUser` from `src/application/ports.rs`: all fields optional. -/
structure UpdateUser where
  email : Option String
  name : Option String
deriving DecidableEq, Repr

/-- Embeds `NewProduct` from `src/application/ports.rs`. -/
structure NewProduct where
  sku : String
  name : String
  price_cents : Int
deriving DecidableEq, Repr

/-- Embeds `UpdateProduct` from `src/application/ports.rs`: all fields optional. -/
structure UpdateProduct where
  sku : Option String
  name : Option String
  price_cents : Option Int
deriving DecidableEq, Repr

/-- Embeds `NewOrder` from `src/application/ports.rs`. -/
structure NewOrder where
  user_id : Uuid
  status : String
  total_cents : Int
deriving DecidableEq, Repr

/-- Embeds `UpdateOrder` from `src/application/ports.rs`: only `status` and
`total_cents`, both optional — there is no `user_id` field. -/
structure UpdateOrder where
  status : Option String
  total_cents : Option Int
deriving DecidableEq, Repr

namespace UsersRepo

/-- Embeds `map_sqlx_err` from `src/adapters/db/users_repo.rs` lines 19–32. -/
def map_sqlx_err (err : SqlxError) : RepoError :=
  match err with
  | .rowNotFound => RepoError.NotFound
  | .database code _ =>
      -- Postgres: unique_violation = 23505
      if code = some "23505" then RepoError.Conflict
      else RepoError.Unexpected err.toMessage
  | _ => RepoError.Unexpected err.toMessage

end UsersRepo

namespace ProductsRepo

/-- Embeds `map_sqlx_err` from `src/adapters/db/products_repo.rs` lines 19–31. -/
def map_sqlx_err (err : SqlxError) : RepoError :=
  match err with
  | .rowNotFound => RepoError.NotFound
  | .database code _ =>
      if code = some "23505" then RepoError.Conflict
      else RepoError.Unexpected err.toMessage
  | _ => RepoError.Unexpected err.toMessage

end ProductsRepo

namespace OrdersRepo

/-- Embeds `map_sqlx_err` from `src/adapters/db/orders_repo.rs` lines 19–32. -/
def map_sqlx_err (err : SqlxError) : RepoError :=
  match err with
  | .rowNotFound => RepoError.NotFound
  | .database code _ =>
      -- foreign_key_violation = 23503, unique_violation = 23505
      if code = some "23505" then RepoError.Conflict
      else RepoError.Unexpected err.toMessage
  | _ => RepoError.Unexpected err.toMessage

end OrdersRepo

/-- Modelled from the spec: the Postgres message of a unique-constraint
violation (`email`/`sku` unique indexes live in the migrations, outside
`src/`; only the SQLSTATE code `23505` matters to the adapters). -/
def uniqueViolationMessage : String :=
  "duplicate key value violates unique constraint"

/-- Modelled from the spec: the Postgres message of a foreign-key violation
(the `orders.user_id → users.id` constraint lives in the migrations, outside
`src/`; only the SQLSTATE code `23503` matters to the adapters). -/
def fkViolationMessage : String :=
  "insert or update on table \x22orders\x22 violates foreign key constraint"

/-- The `users` table: its rows, the value `now()` returns during the next
statement, and the server-side id generator. -/
structure UsersDb where
  rows : List User
  now : Timestamp
  nextId : Uuid
deriving Repr

/-- The `products` table, same shape as `UsersDb`. -/
structure ProductsDb where
  rows : List Product
  now : Timestamp
  nextId : Uuid
deriving Repr

/-- The `orders` table, plus the set of existing user ids the
`orders.user_id` foreign key references. -/
structure OrdersDb where
  rows : List Order
  userIds : List Uuid
  now : Timestamp
  nextId : Uuid
deriving Repr

namespace PgUserRepository

/-- Embeds `PgUserRepository::create` (`users_repo.rs` lines 36–57): `INSERT INTO
users (email, name) VALUES ($1,$2) RETURNING ...`. A duplicate email makes
the storage layer raise a database error with code 23505, which
`map_sqlx_err` turns into `Conflict`; otherwise the row is inserted with
server-assigned id and `created_at = updated_at = now()`. -/
def create (db : UsersDb) (input : NewUser) :
    Except RepoError User × UsersDb :=
  if db.rows.any fun r => r.email == input.email then
    (.error (UsersRepo.map_sqlx_err
      (.database (some "23505") uniqueViolationMessage)), db)
  else
    let u : User :=
      { id := db.nextId, email := input.email, name := input.name
        created_at := db.now, updated_at := db.now }
    (.ok u, { db with rows := db.rows ++ [u], nextId := db.nextId + 1 })

/-- Embeds `PgUserRepository::list` (`users_repo.rs` lines 59–81): `SELECT ...
FROM users ORDER BY created_at DESC`; an empty table yields `Ok []`. -/
def list (db : UsersDb) : Except RepoError (List User) :=
  .ok (db.rows.mergeSort fun a b => b.created_at ≤ a.created_at)

/-- Embeds `PgUserRepository::get` (`users_repo.rs` lines 83–103): `SELECT ...
WHERE id = $1` with `fetch_one`; zero rows gives `sqlx::Error::RowNotFound`
which `map_sqlx_err` maps to `NotFound`. -/
def get (db : UsersDb) (id : Uuid) : Except RepoError User :=
  match db.rows.find? fun r => r.id == id with
  | some u => .ok u
  | none => .error (UsersRepo.map_sqlx_err .rowNotFound)

/-- The effect of `SET email = COALESCE($2, email), name = COALESCE($3,
name), updated_at = now()` on one row. -/
def applyUpdate (input : UpdateUser) (now : Timestamp) (r : User) : User :=
  { r with email := input.email.getD r.email
           name := input.name.getD r.name
           updated_at := now }

/-- Embeds `PgUserRepository::update` (`users_repo.rs` lines 105–131): the UPDATE
with COALESCE per optional field, `updated_at = now()`, `RETURNING` via
`fetch_one` (zero matching rows → `RowNotFound` → `NotFound`); an email
collision with another row raises the 23505 database error → `Conflict`. -/
def update (db : UsersDb) (id : Uuid) (input : UpdateUser) :
    Except RepoError User × UsersDb :=
  match db.rows.find? fun r => r.id == id with
  | none => (.error (UsersRepo.map_sqlx_err .rowNotFound), db)
  | some r =>
    let r' := applyUpdate input db.now r
    if db.rows.any fun s => s.id != id && s.email == r'.email then
      (.error (UsersRepo.map_sqlx_err
        (.database (some "23505") uniqueViolationMessage)), db)
    else
      (.ok r', { db with rows := db.rows.map fun s =>
        if s.id = id then applyUpdate input db.now s else s })

/-- Embeds `PgUserRepository::delete` (`users_repo.rs` lines 133–143): `DELETE FROM
users WHERE id = $1`, then the explicit affected-row-count check:
`rows_affected() == 0` returns `Err(NotFound)`, otherwise `Ok(())`. -/
def delete (db : UsersDb) (id : Uuid) :
    Except RepoError Unit × UsersDb :=
  let remaining := db.rows.filter fun r => r.id != id
  let rows_affected := db.rows.length - remaining.length
  if rows_affected = 0 then (.error RepoError.NotFound, db)
  else (.ok (), { db with rows := remaining })

end PgUserRepository

namespace PgProductRepository

/-- Embeds `PgProductRepository::create` (`products_repo.rs` lines 35–58): `INSERT
INTO products (sku, name, price_cents) ... RETURNING ...`; a duplicate sku
raises the 23505 database error → `Conflict`. -/
def create (db : ProductsDb) (input : NewProduct) :
    Except RepoError Product × ProductsDb :=
  if db.rows.any fun r => r.sku == input.sku then
    (.error (ProductsRepo.map_sqlx_err
      (.database (some "23505") uniqueViolationMessage)), db)
  else
    let p : Product :=
      { id := db.nextId, sku := input.sku, name := input.name
        price_cents := input.price_cents
        created_at := db.now, updated_at := db.now }
    (.ok p, { db with rows := db.rows ++ [p], nextId := db.nextId + 1 })

/-- Embeds `PgProductRepository::list` (`products_repo.rs` lines 60–83):
`SELECT ... FROM products ORDER BY created_at DESC`. -/
def list (db : ProductsDb) : Except RepoError (List Product) :=
  .ok (db.rows.mergeSort fun a b => b.created_at ≤ a.created_at)

/-- Embeds `PgProductRepository::get` (`products_repo.rs` lines 85–106). -/
def get (db : ProductsDb) (id : Uuid) : Except RepoError Product :=
  match db.rows.find? fun r => r.id == id with
  | some p => .ok p
  | none => .error (ProductsRepo.map_sqlx_err .rowNotFound)

/-- The effect of `SET sku = COALESCE($2, sku), name = COALESCE($3, name),
price_cents = COALESCE($4, price_cents), updated_at = now()` on one row. -/
def applyUpdate (input : UpdateProduct) (now : Timestamp) (r : Product) :
    Product :=
  { r with sku := input.sku.getD r.sku
           name := input.name.getD r.name
           price_cents := input.price_cents.getD r.price_cents
           updated_at := now }

/-- Embeds `PgProductRepository::update` (`products_repo.rs` lines 108–137). -/
def update (db : ProductsDb) (id : Uuid) (input : UpdateProduct) :
    Except RepoError Product × ProductsDb :=
  match db.rows.find? fun r => r.id == id with
  | none => (.error (ProductsRepo.map_sqlx_err .rowNotFound), db)
  | some r =>
    let r' := applyUpdate input db.now r
    if db.rows.any fun s => s.id != id && s.sku == r'.sku then
      (.error (ProductsRepo.map_sqlx_err
        (.database (some "23505") uniqueViolationMessage)), db)
    else
      (.ok r', { db with rows := db.rows.map fun s =>
        if s.id = id then applyUpdate input db.now s else s })

/-- Embeds `PgProductRepository::delete` (`products_repo.rs` lines 139–149). -/
def delete (db : ProductsDb) (id : Uuid) :
    Except RepoError Unit × ProductsDb :=
  let remaining := db.rows.filter fun r => r.id != id
  let rows_affected := db.rows.length - remaining.length
  if rows_affected = 0 then (.error RepoError.NotFound, db)
  else (.ok (), { db with rows := remaining })

end PgProductRepository

namespace PgOrderRepository

/-- Embeds `PgOrderRepository::create` (`orders_repo.rs` lines 36–59): `INSERT INTO
orders (user_id, status, total_cents) ... RETURNING ...`; a `user_id` not
present in `users` makes the storage layer raise the foreign-key-violation
database error with code 23503, which `map_sqlx_err` sends to the
`Unexpected` branch (23503 ≠ 23505). -/
def create (db : OrdersDb) (input : NewOrder) :
    Except RepoError Order × OrdersDb :=
  if db.userIds.any fun uid => uid == input.user_id then
    let o : Order :=
      { id := db.nextId, user_id := input.user_id, status := input.status
        total_cents := input.total_cents
        created_at := db.now, updated_at := db.now }
    (.ok o, { db with rows := db.rows ++ [o], nextId := db.nextId + 1 })
  else
    (.error (OrdersRepo.map_sqlx_err
      (.database (some "23503") fkViolationMessage)), db)

/-- Embeds `PgOrderRepository::list` (`orders_repo.rs` lines 61–84). -/
def list (db : OrdersDb) : Except RepoError (List Order) :=
  .ok (db.rows.mergeSort fun a b => b.created_at ≤ a.created_at)

/-- Embeds `PgOrderRepository::get` (`orders_repo.rs` lines 86–107). -/
def get (db : OrdersDb) (id : Uuid) : Except RepoError Order :=
  match db.rows.find? fun r => r.id == id with
  | some o => .ok o
  | none => .error (OrdersRepo.map_sqlx_err .rowNotFound)

/-- The effect of `SET status = COALESCE($2, status), total_cents =
COALESCE($3, total_cents), updated_at = now()` on one row: `user_id`,
`id` and `created_at` are never assigned. -/
def applyUpdate (input : UpdateOrder) (now : Timestamp) (r : Order) :
    Order :=
  { r with status := input.status.getD r.status
           total_cents := input.total_cents.getD r.total_cents
           updated_at := now }

/-- Embeds `PgOrderRepository::update` (`orders_repo.rs` lines 109–136); no
uniqueness constraint applies to orders beyond the primary key. -/
def update (db : OrdersDb) (id : Uuid) (input : UpdateOrder) :
    Except RepoError Order × OrdersDb :=
  match db.rows.find? fun r => r.id == id with
  | none => (.error (OrdersRepo.map_sqlx_err .rowNotFound), db)
  | some r =>
    (.ok (applyUpdate input db.now r),
     { db with rows := db.rows.map fun s =>
        if s.id = id then applyUpdate input db.now s else s })

/-- Embeds `PgOrderRepository::delete` (`orders_repo.rs` lines 138–148). -/
def delete (db : OrdersDb) (id : Uuid) :
    Except RepoError Unit × OrdersDb :=
  let remaining := db.rows.filter fun r => r.id != id
  let rows_affected := db.rows.length - remaining.length
  if rows_affected = 0 then (.error RepoError.NotFound, db)
  else (.ok (), { db with rows := remaining })

end PgOrderRepository

/-- The `UserRepository` trait (`ports.rs` lines 28–35) as a record of
operations over an abstract repository state `σ` (state passing makes the
`async` effects explicit). -/
structure UserRepositoryI (σ : Type) where
  create : σ → NewUser → Except RepoError User × σ
  list : σ → Except RepoError (List User)
  get : σ → Uuid → Except RepoError User
  update : σ → Uuid → UpdateUser → Except RepoError User × σ
  delete : σ → Uuid → Except RepoError Unit × σ

/-- The `ProductRepository` trait (`ports.rs` lines 51–58). -/
structure ProductRepositoryI (σ : Type) where
  create : σ → NewProduct → Except RepoError Product × σ
  list : σ → Except RepoError (List Product)
  get : σ → Uuid → Except RepoError Product
  update : σ → Uuid → UpdateProduct → Except RepoError Product × σ
  delete : σ → Uuid → Except RepoError Unit × σ

/-- The `OrderRepository` trait (`ports.rs` lines 73–80). -/
structure OrderRepositoryI (σ : Type) where
  create : σ → NewOrder → Except RepoError Order × σ
  list : σ → Except RepoError (List Order)
  get : σ → Uuid → Except RepoError Order
  update : σ → Uuid → UpdateOrder → Except RepoError Order × σ
  delete : σ → Uuid → Except RepoError Unit × σ

/-- Embeds `UserService<R>` (`services.rs` lines 9–34): holds its repository (the
`Arc` shared-ownership wrapper has no observable behavior) — each method
body is `self.repo.<op>(...)`. -/
structure UserService (σ : Type) where
  repo : UserRepositoryI σ

def UserService.create (svc : UserService σ) (db : σ) (input : NewUser) :
    Except RepoError User × σ :=
  svc.repo.create db input

def UserService.list (svc : UserService σ) (db : σ) :
    Except RepoError (List User) :=
  svc.repo.list db

def UserService.get (svc : UserService σ) (db : σ) (id : Uuid) :
    Except RepoError User :=
  svc.repo.get db id

def UserService.update (svc : UserService σ) (db : σ) (id : Uuid)
    (input : UpdateUser) : Except RepoError User × σ :=
  svc.repo.update db id input

def UserService.delete (svc : UserService σ) (db : σ) (id : Uuid) :
    Except RepoError Unit × σ :=
  svc.repo.delete db id

/-- Embeds `ProductService<R>` (`services.rs` lines 36–61). -/
structure ProductService (σ : Type) where
  repo : ProductRepositoryI σ

def ProductService.create (svc : ProductService σ) (db : σ)
    (input : NewProduct) : Except RepoError Product × σ :=
  svc.repo.create db input

def ProductService.list (svc : ProductService σ) (db : σ) :
    Except RepoError (List Product) :=
  svc.repo.list db

def ProductService.get (svc : ProductService σ) (db : σ) (id : Uuid) :
    Except RepoError Product :=
  svc.repo.get db id

def ProductService.update (svc : ProductService σ) (db : σ) (id : Uuid)
    (input : UpdateProduct) : Except RepoError Product × σ :=
  svc.repo.update db id input

def ProductService.delete (svc : ProductService σ) (db : σ) (id : Uuid) :
    Except RepoError Unit × σ :=
  svc.repo.delete db id

/-- Embeds `OrderService<R>` (`services.rs` lines 63–88). -/
structure OrderService (σ : Type) where
  repo : OrderRepositoryI σ

def OrderService.create (svc : OrderService σ) (db : σ)
    (input : NewOrder) : Except RepoError Order × σ :=
  svc.repo.create db input

def OrderService.list (svc : OrderService σ) (db : σ) :
    Except RepoError (List Order) :=
  svc.repo.list db

def OrderService.get (svc : OrderService σ) (db : σ) (id : Uuid) :
    Except RepoError Order :=
  svc.repo.get db id

def OrderService.update (svc : OrderService σ) (db : σ) (id : Uuid)
    (input : UpdateOrder) : Except RepoError Order × σ :=
  svc.repo.update db id input

def OrderService.delete (svc : OrderService σ) (db : σ) (id : Uuid) :
    Except RepoError Unit × σ :=
  svc.repo.delete db id

/-! ## Health endpoint (`src/adapters/web/router.rs` lines 40–58) -/

/-- Embeds `ApiError` from `src/adapters/web/error.rs`: an HTTP status plus a
message (statuses as their numeric codes). -/
structure ApiError where
  status : Nat
  message : String
deriving DecidableEq, Repr

/-- Embeds `HealthResponse` from `router.rs` lines 40–44. -/
structure HealthResponse where
  status : String
  db : String
deriving DecidableEq, Repr

/-- The timeout `Duration::from_secs(2)` wrapped around the probe. -/
def HEALTH_PROBE_TIMEOUT_SECS : Nat := 2

/-- Embeds `tokio::time::timeout(limit, fut)`: yields the future's outcome when it
completes strictly within the limit, `none` (the `Elapsed` error) when it
does not. Elapsed time is an explicit parameter of the model. -/
def tokioTimeout (limitSecs elapsedSecs : Nat) (outcome : α) : Option α :=
  if elapsedSecs < limitSecs then some outcome else none

/-- Embeds `db_health` (`router.rs` lines 51–58): runs `SELECT 1` under the
2-second timeout; `true` exactly when the probe both completed in time and
succeeded (`.ok().and_then(|r| r.ok()).is_some()`). -/
def db_health (elapsedSecs : Nat) (probe : Except SqlxError Int) : Bool :=
  match tokioTimeout HEALTH_PROBE_TIMEOUT_SECS elapsedSecs probe with
  | some (.ok _) => true
  | _ => false

/-- Embeds `health` (`router.rs` lines 46–49): always `Ok`, with `status: "ok"`
and `db` reporting the probe result. -/
def health (elapsedSecs : Nat) (probe : Except SqlxError Int) :
    Except ApiError HealthResponse :=
  let db_ok := db_health elapsedSecs probe
  .ok { status := "ok", db := if db_ok then "ok" else "error" }

/-! ## Row decoding (`sqlx::Row::get`)

`create`/`get`/`update`/`list` read the returned row with `row.get::<T, _>`,
the panicking accessor (`try_get(...).unwrap()`): a missing column or a
value of the wrong type aborts instead of producing a `RepoError`. The
model makes the fetched row explicit; `none` in the outer `Option` marks
the panic. -/

/-- A dynamically-typed Postgres value as sqlx decodes it. -/
inductive PgValue where
  | uuid (v : Uuid)
  | text (s : String)
  | int8 (n : Int)
  | timestamptz (t : Timestamp)
deriving DecidableEq, Repr

/-- A fetched row: named columns. -/
abbrev PgRow := List (String × PgValue)

/-- Embeds `row.try_get(col)`: the column's value when present. -/
def PgRow.tryGet (row : PgRow) (col : String) : Option PgValue :=
  (row.find? fun p => p.1 == col).map (·.2)

/-- Decode as `Uuid` (`row.get::<Uuid, _>` succeeds only on a uuid value). -/
def decodeUuid : Option PgValue → Option Uuid
  | some (.uuid v) => some v
  | _ => none

/-- Decode as `String`. -/
def decodeText : Option PgValue → Option String
  | some (.text s) => some s
  | _ => none

/-- Decode as `i64`. -/
def decodeInt8 : Option PgValue → Option Int
  | some (.int8 n) => some n
  | _ => none

/-- Decode as `DateTime<Utc>`. -/
def decodeTimestamptz : Option PgValue → Option Timestamp
  | some (.timestamptz t) => some t
  | _ => none

/-- The `User { id: row.get("id"), ... }` construction (`users_repo.rs`
lines 50–56); `none` when any `row.get` would panic. -/
def decodeUserRow (row : PgRow) : Option User := do
  let id ← decodeUuid (row.tryGet "id")
  let email ← decodeText (row.tryGet "email")
  let name ← decodeText (row.tryGet "name")
  let created_at ← decodeTimestamptz (row.tryGet "created_at")
  let updated_at ← decodeTimestamptz (row.tryGet "updated_at")
  pure { id, email, name, created_at, updated_at }

/-- The `Product { ... }` construction (`products_repo.rs` lines 50–57). -/
def decodeProductRow (row : PgRow) : Option Product := do
  let id ← decodeUuid (row.tryGet "id")
  let sku ← decodeText (row.tryGet "sku")
  let name ← decodeText (row.tryGet "name")
  let price_cents ← decodeInt8 (row.tryGet "price_cents")
  let created_at ← decodeTimestamptz (row.tryGet "created_at")
  let updated_at ← decodeTimestamptz (row.tryGet "updated_at")
  pure { id, sku, name, price_cents, created_at, updated_at }

/-- Embeds `PgUserRepository::create` as a function of the storage outcome of the
INSERT (`fetch_one` returning either an error or a row): an error is mapped
by `map_sqlx_err`; a fetched row is read with the panicking `row.get`
accessors, so an undecodable row yields `none` (process abort), not a
`RepoError`. -/
def UsersRepo.createFetched (fetched : Except SqlxError PgRow) :
    Option (Except RepoError User) :=
  match fetched with
  | .error e => some (.error (UsersRepo.map_sqlx_err e))
  | .ok row => (decodeUserRow row).map Except.ok

/-- Embeds `PgProductRepository::create` as a function of the storage outcome. -/
def ProductsRepo.createFetched (fetched : Except SqlxError PgRow) :
    Option (Except RepoError Product) :=
  match fetched with
  | .error e => some (.error (ProductsRepo.map_sqlx_err e))
  | .ok row => (decodeProductRow row).map Except.ok

/-- The `Order { ... }` construction (`orders_repo.rs` lines 51–58). -/
def decodeOrderRow (row : PgRow) : Option Order := do
  let id ← decodeUuid (row.tryGet "id")
  let user_id ← decodeUuid (row.tryGet "user_id")
  let status ← decodeText (row.tryGet "status")
  let total_cents ← decodeInt8 (row.tryGet "total_cents")
  let created_at ← decodeTimestamptz (row.tryGet "created_at")
  let updated_at ← decodeTimestamptz (row.tryGet "updated_at")
  pure { id, user_id, status, total_cents, created_at, updated_at }

/-- Embeds `rows.into_iter().map(|row| ...).collect()` as used by the three
`list` methods: rows are decoded in order with the panicking `row.get`
accessors, so the first undecodable row aborts (`none`). -/
def collectRows {α : Type} (dec : PgRow → Option α) :
    List PgRow → Option (List α)
  | [] => some []
  | row :: rest => do
    let u ← dec row
    let us ← collectRows dec rest
    pure (u :: us)

/-- Embeds `PgOrderRepository::create` as a function of the storage
outcome (`orders_repo.rs` lines 36–59). -/
def OrdersRepo.createFetched (fetched : Except SqlxError PgRow) :
    Option (Except RepoError Order) :=
  match fetched with
  | .error e => some (.error (OrdersRepo.map_sqlx_err e))
  | .ok row => (decodeOrderRow row).map Except.ok

/-- Embeds `PgUserRepository::get` as a function of the storage outcome of
the SELECT's `fetch_one` (`users_repo.rs` lines 83–103): same error
mapping and the same panicking row accessors as `create`. -/
def UsersRepo.getFetched (fetched : Except SqlxError PgRow) :
    Option (Except RepoError User) :=
  match fetched with
  | .error e => some (.error (UsersRepo.map_sqlx_err e))
  | .ok row => (decodeUserRow row).map Except.ok

/-- Embeds `PgProductRepository::get` as a function of the storage outcome
(`products_repo.rs` lines 85–106). -/
def ProductsRepo.getFetched (fetched : Except SqlxError PgRow) :
    Option (Except RepoError Product) :=
  match fetched with
  | .error e => some (.error (ProductsRepo.map_sqlx_err e))
  | .ok row => (decodeProductRow row).map Except.ok

/-- Embeds `PgOrderRepository::get` as a function of the storage outcome
(`orders_repo.rs` lines 86–107). -/
def OrdersRepo.getFetched (fetched : Except SqlxError PgRow) :
    Option (Except RepoError Order) :=
  match fetched with
  | .error e => some (.error (OrdersRepo.map_sqlx_err e))
  | .ok row => (decodeOrderRow row).map Except.ok

/-- Embeds `PgUserRepository::update` as a function of the storage outcome
of the UPDATE's `RETURNING` `fetch_one` (`users_repo.rs` lines 105–131). -/
def UsersRepo.updateFetched (fetched : Except SqlxError PgRow) :
    Option (Except RepoError User) :=
  match fetched with
  | .error e => some (.error (UsersRepo.map_sqlx_err e))
  | .ok row => (decodeUserRow row).map Except.ok

/-- Embeds `PgProductRepository::update` as a function of the storage
outcome (`products_repo.rs` lines 108–137). -/
def ProductsRepo.updateFetched (fetched : Except SqlxError PgRow) :
    Option (Except RepoError Product) :=
  match fetched with
  | .error e => some (.error (ProductsRepo.map_sqlx_err e))
  | .ok row => (decodeProductRow row).map Except.ok

/-- Embeds `PgOrderRepository::update` as a function of the storage
outcome (`orders_repo.rs` lines 109–136). -/
def OrdersRepo.updateFetched (fetched : Except SqlxError PgRow) :
    Option (Except RepoError Order) :=
  match fetched with
  | .error e => some (.error (OrdersRepo.map_sqlx_err e))
  | .ok row => (decodeOrderRow row).map Except.ok

/-- Embeds `PgUserRepository::list` as a function of the storage outcome
of `fetch_all` (`users_repo.rs` lines 59–81): an error is mapped by
`map_sqlx_err`; fetched rows are decoded with the panicking accessors. -/
def UsersRepo.listFetched (fetched : Except SqlxError (List PgRow)) :
    Option (Except RepoError (List User)) :=
  match fetched with
  | .error e => some (.error (UsersRepo.map_sqlx_err e))
  | .ok rows => (collectRows decodeUserRow rows).map Except.ok

/-- Embeds `PgProductRepository::list` as a function of the storage
outcome (`products_repo.rs` lines 60–83). -/
def ProductsRepo.listFetched (fetched : Except SqlxError (List PgRow)) :
    Option (Except RepoError (List Product)) :=
  match fetched with
  | .error e => some (.error (ProductsRepo.map_sqlx_err e))
  | .ok rows => (collectRows decodeProductRow rows).map Except.ok

/-- Embeds `PgOrderRepository::list` as a function of the storage outcome
(`orders_repo.rs` lines 61–84). -/
def OrdersRepo.listFetched (fetched : Except SqlxError (List PgRow)) :
    Option (Except RepoError (List Order)) :=
  match fetched with
  | .error e => some (.error (OrdersRepo.map_sqlx_err e))
  | .ok rows => (collectRows decodeOrderRow rows).map Except.ok

/-- Embeds `PgUserRepository::delete` as a function of the storage outcome
of `execute` (`users_repo.rs` lines 133–143): the outcome carries the
affected-row count; no row is decoded, so no path panics. -/
def UsersRepo.deleteExecuted (executed : Except SqlxError Nat) :
    Option (Except RepoError Unit) :=
  match executed with
  | .error e => some (.error (UsersRepo.map_sqlx_err e))
  | .ok rows_affected =>
      if rows_affected = 0 then some (.error RepoError.NotFound)
      else some (.ok ())

/-- Embeds `PgProductRepository::delete` as a function of the storage
outcome (`products_repo.rs` lines 139–149). -/
def ProductsRepo.deleteExecuted (executed : Except SqlxError Nat) :
    Option (Except RepoError Unit) :=
  match executed with
  | .error e => some (.error (ProductsRepo.map_sqlx_err e))
  | .ok rows_affected =>
      if rows_affected = 0 then some (.error RepoError.NotFound)
      else some (.ok ())

/-- Embeds `PgOrderRepository::delete` as a function of the storage
outcome (`orders_repo.rs` lines 138–148). -/
def OrdersRepo.deleteExecuted (executed : Except SqlxError Nat) :
    Option (Except RepoError Unit) :=
  match executed with
  | .error e => some (.error (OrdersRepo.map_sqlx_err e))
  | .ok rows_affected =>
      if rows_affected = 0 then some (.error RepoError.NotFound)
      else some (.ok ())

/-! ## Theorems -/

/-- C1: `map_sqlx_err` yields `NotFound` exactly on `RowNotFound`,
`Conflict` exactly on a database error with code `23505`, and in every
other case `Unexpected` carrying the original error's message text. -/
theorem map_sqlx_err_taxonomy (e : SqlxError) :
    (UsersRepo.map_sqlx_err e = RepoError.NotFound ↔
      e = SqlxError.rowNotFound) ∧
    (UsersRepo.map_sqlx_err e = RepoError.Conflict ↔
      ∃ m, e = SqlxError.database (some "23505") m) ∧
    (e ≠ SqlxError.rowNotFound →
      (∀ m, e ≠ SqlxError.database (some "23505") m) →
      UsersRepo.map_sqlx_err e = RepoError.Unexpected e.toMessage) := by
  rcases e with _ | ⟨code, m⟩ | m
  · simp [UsersRepo.map_sqlx_err]
  · by_cases h : code = some "23505"
    · subst h
      refine ⟨by simp [UsersRepo.map_sqlx_err], ?_, ?_⟩
      · simp [UsersRepo.map_sqlx_err]
      · intro _ hno
        exact absurd rfl (hno m)
    · refine ⟨by simp [UsersRepo.map_sqlx_err, h], ?_, ?_⟩
      · simp [UsersRepo.map_sqlx_err, h]
      · intro _ _
        simp [UsersRepo.map_sqlx_err, h]
  · simp [UsersRepo.map_sqlx_err]

/-- C1 witness: concrete instances of the three branches. -/
theorem map_sqlx_err_taxonomy_witness :
    UsersRepo.map_sqlx_err (SqlxError.other "io error") =
      RepoError.Unexpected "io error" :=
  (map_sqlx_err_taxonomy (SqlxError.other "io error")).2.2
    (by intro h; cases h) (by intro m h; cases h)

/-- C4: the three per-adapter copies of `map_sqlx_err` agree on every
native storage error. -/
theorem map_sqlx_err_identical (e : SqlxError) :
    UsersRepo.map_sqlx_err e = ProductsRepo.map_sqlx_err e ∧
    UsersRepo.map_sqlx_err e = OrdersRepo.map_sqlx_err e :=
  ⟨rfl, rfl⟩

/-- C9: a foreign-key violation (code 23503) is neither `NotFound` nor
`Conflict`: the orders adapter maps it to `Unexpected` carrying the native
message, and `create` with a dangling `user_id` surfaces exactly that. -/
theorem orders_fk_violation_unexpected :
    (∀ m, OrdersRepo.map_sqlx_err (SqlxError.database (some "23503") m) =
      RepoError.Unexpected
        (SqlxError.toMessage (SqlxError.database (some "23503") m))) ∧
    (∀ (db : OrdersDb) (input : NewOrder),
      input.user_id ∉ db.userIds →
      (PgOrderRepository.create db input).1 =
        .error (RepoError.Unexpected
          (SqlxError.toMessage
            (SqlxError.database (some "23503") fkViolationMessage))) ∧
      (PgOrderRepository.create db input).1 ≠ .error RepoError.NotFound ∧
      (PgOrderRepository.create db input).1 ≠ .error RepoError.Conflict) := by
  constructor
  · intro m
    simp [OrdersRepo.map_sqlx_err]
  · intro db input hno
    have hguard : (db.userIds.any fun uid => uid == input.user_id) = false := by
      rw [Bool.eq_false_iff]
      intro hany
      rw [List.any_eq_true] at hany
      obtain ⟨uid, huid, heq⟩ := hany
      exact hno (beq_iff_eq.mp heq ▸ huid)
    simp [PgOrderRepository.create, hguard, OrdersRepo.map_sqlx_err,
      SqlxError.toMessage]

/-- C9 witness: creating an order for user 5 against a store with no
users yields `Unexpected`, not `NotFound`/`Conflict`. -/
theorem orders_fk_violation_unexpected_witness :
    (PgOrderRepository.create ⟨[], [], 0, 0⟩ ⟨5, "created", 1000⟩).1 =
      .error (RepoError.Unexpected
        (SqlxError.toMessage
          (SqlxError.database (some "23503") fkViolationMessage))) :=
  (orders_fk_violation_unexpected.2 ⟨[], [], 0, 0⟩ ⟨5, "created", 1000⟩
    (by simp)).1

/-- C8: the health handler never fails — for every probe outcome and
elapsed time it returns `Ok` with `status = "ok"`, and the `db` field is
`"ok"` exactly when the probe completed within the 2-second timeout with a
success; otherwise it is `"error"`. -/
theorem health_never_fails (elapsedSecs : Nat)
    (probe : Except SqlxError Int) :
    ∃ resp, health elapsedSecs probe = .ok resp ∧
      resp.status = "ok" ∧
      (resp.db = "ok" ↔
        elapsedSecs < HEALTH_PROBE_TIMEOUT_SECS ∧ ∃ n, probe = .ok n) ∧
      (resp.db = "ok" ∨ resp.db = "error") := by
  refine ⟨_, rfl, rfl, ?_, ?_⟩
  · unfold db_health tokioTimeout
    by_cases h : elapsedSecs < HEALTH_PROBE_TIMEOUT_SECS
    · rcases probe with e | n <;> simp [h]
    · simp [h]
  · unfold db_health tokioTimeout
    by_cases h : elapsedSecs < HEALTH_PROBE_TIMEOUT_SECS
    · rcases probe with e | n <;> simp [h]
    · simp [h]

/-- C6: every service operation is pure delegation — for every repository
implementation, state and input, the service returns exactly the wrapped
repository's result, for all five operations of all three services. -/
theorem services_delegate :
    (∀ (σ : Type) (svc : UserService σ) (db : σ) (input : NewUser),
      svc.create db input = svc.repo.create db input) ∧
    (∀ (σ : Type) (svc : UserService σ) (db : σ),
      svc.list db = svc.repo.list db) ∧
    (∀ (σ : Type) (svc : UserService σ) (db : σ) (id : Uuid),
      svc.get db id = svc.repo.get db id) ∧
    (∀ (σ : Type) (svc : UserService σ) (db : σ) (id : Uuid)
      (input : UpdateUser),
      svc.update db id input = svc.repo.update db id input) ∧
    (∀ (σ : Type) (svc : UserService σ) (db : σ) (id : Uuid),
      svc.delete db id = svc.repo.delete db id) ∧
    (∀ (σ : Type) (svc : ProductService σ) (db : σ) (input : NewProduct),
      svc.create db input = svc.repo.create db input) ∧
    (∀ (σ : Type) (svc : ProductService σ) (db : σ),
      svc.list db = svc.repo.list db) ∧
    (∀ (σ : Type) (svc : ProductService σ) (db : σ) (id : Uuid),
      svc.get db id = svc.repo.get db id) ∧
    (∀ (σ : Type) (svc : ProductService σ) (db : σ) (id : Uuid)
      (input : UpdateProduct),
      svc.update db id input = svc.repo.update db id input) ∧
    (∀ (σ : Type) (svc : ProductService σ) (db : σ) (id : Uuid),
      svc.delete db id = svc.repo.delete db id) ∧
    (∀ (σ : Type) (svc : OrderService σ) (db : σ) (input : NewOrder),
      svc.create db input = svc.repo.create db input) ∧
    (∀ (σ : Type) (svc : OrderService σ) (db : σ),
      svc.list db = svc.repo.list db) ∧
    (∀ (σ : Type) (svc : OrderService σ) (db : σ) (id : Uuid),
      svc.get db id = svc.repo.get db id) ∧
    (∀ (σ : Type) (svc : OrderService σ) (db : σ) (id : Uuid)
      (input : UpdateOrder),
      svc.update db id input = svc.repo.update db id input) ∧
    (∀ (σ : Type) (svc : OrderService σ) (db : σ) (id : Uuid),
      svc.delete db id = svc.repo.delete db id) := by
  refine ⟨?_, ?_, ?_, ?_, ?_, ?_, ?_, ?_, ?_, ?_, ?_, ?_, ?_, ?_, ?_⟩ <;>
    intros <;> rfl

/-- Helper: the affected-row count `rows.length - remaining.length` of a
filtering delete is zero exactly when every row survives the filter. -/
theorem length_sub_length_filter_eq_zero {α : Type} (rows : List α)
    (q : α → Bool) :
    rows.length - (rows.filter q).length = 0 ↔ ∀ r ∈ rows, q r = true := by
  rw [Nat.sub_eq_zero_iff_le]
  constructor
  · intro h
    have heq : (rows.filter q).length = rows.length :=
      Nat.le_antisymm (List.length_filter_le q rows) h
    rw [← List.countP_eq_length_filter] at heq
    exact List.countP_eq_length.mp heq
  · intro h
    rw [List.filter_eq_self.mpr h]

/-- C3: for each resource, `delete` returns `Err(NotFound)` exactly when
the DELETE statement affects zero rows (the count of rows matching the id),
and when at least one row is affected it returns `Ok(())` and the record is
removed (no surviving row carries the id). -/
theorem delete_not_found_iff_zero_affected :
    (∀ (db : UsersDb) (id : Uuid),
      ((PgUserRepository.delete db id).1 = .error RepoError.NotFound ↔
        db.rows.countP (fun r => r.id == id) = 0) ∧
      (0 < db.rows.countP (fun r => r.id == id) →
        (PgUserRepository.delete db id).1 = .ok () ∧
        ∀ r ∈ (PgUserRepository.delete db id).2.rows, r.id ≠ id)) ∧
    (∀ (db : ProductsDb) (id : Uuid),
      ((PgProductRepository.delete db id).1 = .error RepoError.NotFound ↔
        db.rows.countP (fun r => r.id == id) = 0) ∧
      (0 < db.rows.countP (fun r => r.id == id) →
        (PgProductRepository.delete db id).1 = .ok () ∧
        ∀ r ∈ (PgProductRepository.delete db id).2.rows, r.id ≠ id)) ∧
    (∀ (db : OrdersDb) (id : Uuid),
      ((PgOrderRepository.delete db id).1 = .error RepoError.NotFound ↔
        db.rows.countP (fun r => r.id == id) = 0) ∧
      (0 < db.rows.countP (fun r => r.id == id) →
        (PgOrderRepository.delete db id).1 = .ok () ∧
        ∀ r ∈ (PgOrderRepository.delete db id).2.rows, r.id ≠ id)) := by
  refine ⟨?_, ?_, ?_⟩ <;>
  · intro db id
    have hzero :
        (db.rows.length -
          (db.rows.filter fun r => r.id != id).length = 0) ↔
        db.rows.countP (fun r => r.id == id) = 0 := by
      rw [length_sub_length_filter_eq_zero, List.countP_eq_zero]
      constructor
      · intro h r hr
        simpa using h r hr
      · intro h r hr
        simpa using h r hr
    constructor
    · by_cases hc :
        db.rows.length - (db.rows.filter fun r => r.id != id).length = 0
      · simp [PgUserRepository.delete, PgProductRepository.delete,
          PgOrderRepository.delete, hc, hzero.mp hc]
      · have hnz : ¬ db.rows.countP (fun r => r.id == id) = 0 :=
          fun h => hc (hzero.mpr h)
        simp [PgUserRepository.delete, PgProductRepository.delete,
          PgOrderRepository.delete, hc, hnz]
    · intro hpos
      have hc :
          ¬ db.rows.length -
            (db.rows.filter fun r => r.id != id).length = 0 := by
        intro h
        exact absurd (hzero.mp h) (Nat.pos_iff_ne_zero.mp hpos)
      refine ⟨by
        simp [PgUserRepository.delete, PgProductRepository.delete,
          PgOrderRepository.delete, hc], ?_⟩
      intro r hr
      simp only [PgUserRepository.delete, PgProductRepository.delete,
        PgOrderRepository.delete, hc, if_false, if_neg hc] at hr
      have hmem := List.mem_filter.mp hr
      simpa using hmem.2

/-- C3 witness: deleting the only user with id 1 succeeds; deleting from an
empty users table reports `NotFound`. -/
theorem delete_not_found_iff_zero_affected_witness :
    (PgUserRepository.delete ⟨[⟨1, "a@b.com", "Alice", 0, 0⟩], 5, 2⟩ 1).1 =
      .ok () :=
  ((delete_not_found_iff_zero_affected.1
    ⟨[⟨1, "a@b.com", "Alice", 0, 0⟩], 5, 2⟩ 1).2 (by decide)).1

/-- C2: for each resource, a successful `update` sets exactly the fields
present (`some`) in the patch, keeps every absent (`none`) field at its
prior value, keeps `id` and `created_at` unchanged, and sets `updated_at`
to the statement's `now()` unconditionally — also on an all-`none` patch. -/
theorem update_applies_only_present_fields :
    (∀ (db : UsersDb) (id : Uuid) (input : UpdateUser) (row : User),
      db.rows.find? (fun r => r.id == id) = some row →
      (∀ s ∈ db.rows, s.id ≠ id → s.email ≠ input.email.getD row.email) →
      ∃ u, (PgUserRepository.update db id input).1 = .ok u ∧
        u.id = row.id ∧
        u.email = input.email.getD row.email ∧
        u.name = input.name.getD row.name ∧
        u.created_at = row.created_at ∧
        u.updated_at = db.now) ∧
    (∀ (db : ProductsDb) (id : Uuid) (input : UpdateProduct) (row : Product),
      db.rows.find? (fun r => r.id == id) = some row →
      (∀ s ∈ db.rows, s.id ≠ id → s.sku ≠ input.sku.getD row.sku) →
      ∃ p, (PgProductRepository.update db id input).1 = .ok p ∧
        p.id = row.id ∧
        p.sku = input.sku.getD row.sku ∧
        p.name = input.name.getD row.name ∧
        p.price_cents = input.price_cents.getD row.price_cents ∧
        p.created_at = row.created_at ∧
        p.updated_at = db.now) ∧
    (∀ (db : OrdersDb) (id : Uuid) (input : UpdateOrder) (row : Order),
      db.rows.find? (fun r => r.id == id) = some row →
      ∃ o, (PgOrderRepository.update db id input).1 = .ok o ∧
        o.id = row.id ∧
        o.user_id = row.user_id ∧
        o.status = input.status.getD row.status ∧
        o.total_cents = input.total_cents.getD row.total_cents ∧
        o.created_at = row.created_at ∧
        o.updated_at = db.now) := by
  refine ⟨?_, ?_, ?_⟩
  · intro db id input row hfind hcol
    have hguard : (db.rows.any fun s => s.id != id &&
        s.email == (PgUserRepository.applyUpdate input db.now row).email) =
          false := by
      rw [Bool.eq_false_iff]
      intro hany
      rw [List.any_eq_true] at hany
      obtain ⟨s, hs, hcond⟩ := hany
      rw [Bool.and_eq_true] at hcond
      have heq : s.email = input.email.getD row.email := by
        simpa [PgUserRepository.applyUpdate] using beq_iff_eq.mp hcond.2
      exact hcol s hs (bne_iff_ne.mp hcond.1) heq
    refine ⟨PgUserRepository.applyUpdate input db.now row, ?_,
      rfl, rfl, rfl, rfl, rfl⟩
    simp [PgUserRepository.update, hfind, hguard]
  · intro db id input row hfind hcol
    have hguard : (db.rows.any fun s => s.id != id &&
        s.sku == (PgProductRepository.applyUpdate input db.now row).sku) =
          false := by
      rw [Bool.eq_false_iff]
      intro hany
      rw [List.any_eq_true] at hany
      obtain ⟨s, hs, hcond⟩ := hany
      rw [Bool.and_eq_true] at hcond
      have heq : s.sku = input.sku.getD row.sku := by
        simpa [PgProductRepository.applyUpdate] using beq_iff_eq.mp hcond.2
      exact hcol s hs (bne_iff_ne.mp hcond.1) heq
    refine ⟨PgProductRepository.applyUpdate input db.now row, ?_,
      rfl, rfl, rfl, rfl, rfl, rfl⟩
    simp [PgProductRepository.update, hfind, hguard]
  · intro db id input row hfind
    refine ⟨PgOrderRepository.applyUpdate input db.now row, ?_,
      rfl, rfl, rfl, rfl, rfl, rfl⟩
    simp [PgOrderRepository.update, hfind]

/-- C2 witness: patching only `name` on the single stored user keeps
`email`/`id`/`created_at` and bumps `updated_at` to the clock value 7. -/
theorem update_applies_only_present_fields_witness :
    ∃ u, (PgUserRepository.update ⟨[⟨1, "a@b.com", "Alice", 0, 0⟩], 7, 2⟩ 1
        ⟨none, some "Alicia"⟩).1 = .ok u ∧
      u.id = 1 ∧ u.email = "a@b.com" ∧ u.name = "Alicia" ∧
      u.created_at = 0 ∧ u.updated_at = 7 :=
  update_applies_only_present_fields.1
    ⟨[⟨1, "a@b.com", "Alice", 0, 0⟩], 7, 2⟩ 1 ⟨none, some "Alicia"⟩
    ⟨1, "a@b.com", "Alice", 0, 0⟩ (by decide) (by decide)

/-- C10: `UpdateOrder` has no `user_id` field and the UPDATE statement
never assigns it, so a successful `update` returns an order whose
`user_id` (and `created_at`) equals the stored one, and a `get` on the
post-update store observes the same record. -/
theorem orders_user_id_immutable (db : OrdersDb) (id : Uuid)
    (input : UpdateOrder) (row : Order)
    (hfind : db.rows.find? (fun r => r.id == id) = some row) :
    ∃ o, (PgOrderRepository.update db id input).1 = .ok o ∧
      o.user_id = row.user_id ∧
      o.created_at = row.created_at ∧
      PgOrderRepository.get (PgOrderRepository.update db id input).2 id =
        .ok o := by
  have hrowid : row.id = id := by
    simpa using List.find?_some hfind
  have hcomp : ((fun r : Order => r.id == id) ∘
      (fun s => if s.id = id
        then PgOrderRepository.applyUpdate input db.now s else s)) =
      fun r : Order => r.id == id := by
    funext s
    by_cases h : s.id = id
    · simp [Function.comp, h, PgOrderRepository.applyUpdate]
    · simp [Function.comp, h]
  refine ⟨PgOrderRepository.applyUpdate input db.now row, ?_, rfl, rfl, ?_⟩
  · simp [PgOrderRepository.update, hfind]
  · have hpost : (PgOrderRepository.update db id input).2.rows =
        db.rows.map fun s =>
          if s.id = id then PgOrderRepository.applyUpdate input db.now s
          else s := by
      simp [PgOrderRepository.update, hfind]
    unfold PgOrderRepository.get
    rw [hpost, List.find?_map, hcomp, hfind]
    simp [hrowid]

/-- C10 witness: patching order 10 (owned by user 5) to status "paid"
returns and stores an order still owned by user 5. -/
theorem orders_user_id_immutable_witness :
    ∃ o, (PgOrderRepository.update
        ⟨[⟨10, 5, "created", 1000, 0, 0⟩], [5], 9, 11⟩
        10 ⟨some "paid", none⟩).1 = .ok o ∧
      o.user_id = 5 ∧ o.created_at = 0 ∧
      PgOrderRepository.get (PgOrderRepository.update
        ⟨[⟨10, 5, "created", 1000, 0, 0⟩], [5], 9, 11⟩
        10 ⟨some "paid", none⟩).2 10 = .ok o :=
  orders_user_id_immutable ⟨[⟨10, 5, "created", 1000, 0, 0⟩], [5], 9, 11⟩
    10 ⟨some "paid", none⟩ ⟨10, 5, "created", 1000, 0, 0⟩ (by decide)

/-- Helper: merge-sorting by a descending numeric key permutes the input
and sorts it descending. -/
theorem mergeSort_desc_by_key {α : Type} (key : α → Nat) (rows : List α) :
    ((rows.mergeSort fun a b => key b ≤ key a).Perm rows) ∧
    List.Pairwise (fun a b => key b ≤ key a)
      (rows.mergeSort fun a b => key b ≤ key a) := by
  refine ⟨List.mergeSort_perm rows _, ?_⟩
  have h := @List.sorted_mergeSort α
    (fun a b : α => decide (key b ≤ key a))
    (fun a b c hab hbc => by
      simp only [decide_eq_true_eq] at *
      omega)
    (fun a b => by
      simp only [Bool.or_eq_true, decide_eq_true_eq]
      omega)
    rows
  exact h.imp fun hab => by simpa using hab

/-- C5: for each resource, `list` returns `Ok` with a permutation of the
stored rows sorted by `created_at` descending (so exactly as many entries
as there are records); an empty store yields `Ok []`; and a successful
`create` grows the listed count by exactly one. Order across repeated
calls on an unchanged store is definitionally stable (`list` is a pure
function of the store). -/
theorem list_sorted_desc :
    ((∀ db : UsersDb, ∃ l, PgUserRepository.list db = .ok l ∧
        l.Perm db.rows ∧
        List.Pairwise (fun a b => b.created_at ≤ a.created_at) l ∧
        l.length = db.rows.length) ∧
      (PgUserRepository.list ⟨[], 0, 0⟩ = .ok []) ∧
      (∀ (db : UsersDb) (input : NewUser) (u : User) (db' : UsersDb),
        PgUserRepository.create db input = (.ok u, db') →
        ∃ l l', PgUserRepository.list db = .ok l ∧
          PgUserRepository.list db' = .ok l' ∧
          l'.length = l.length + 1)) ∧
    ((∀ db : ProductsDb, ∃ l, PgProductRepository.list db = .ok l ∧
        l.Perm db.rows ∧
        List.Pairwise (fun a b => b.created_at ≤ a.created_at) l ∧
        l.length = db.rows.length) ∧
      (PgProductRepository.list ⟨[], 0, 0⟩ = .ok []) ∧
      (∀ (db : ProductsDb) (input : NewProduct) (p : Product)
        (db' : ProductsDb),
        PgProductRepository.create db input = (.ok p, db') →
        ∃ l l', PgProductRepository.list db = .ok l ∧
          PgProductRepository.list db' = .ok l' ∧
          l'.length = l.length + 1)) ∧
    ((∀ db : OrdersDb, ∃ l, PgOrderRepository.list db = .ok l ∧
        l.Perm db.rows ∧
        List.Pairwise (fun a b => b.created_at ≤ a.created_at) l ∧
        l.length = db.rows.length) ∧
      (PgOrderRepository.list ⟨[], [], 0, 0⟩ = .ok []) ∧
      (∀ (db : OrdersDb) (input : NewOrder) (o : Order) (db' : OrdersDb),
        PgOrderRepository.create db input = (.ok o, db') →
        ∃ l l', PgOrderRepository.list db = .ok l ∧
          PgOrderRepository.list db' = .ok l' ∧
          l'.length = l.length + 1)) := by
  refine ⟨⟨?_, ?_, ?_⟩, ⟨?_, ?_, ?_⟩, ⟨?_, ?_, ?_⟩⟩
  · intro db
    obtain ⟨hperm, hsorted⟩ := mergeSort_desc_by_key User.created_at db.rows
    exact ⟨_, rfl, hperm, hsorted, by
      simp [List.length_mergeSort]⟩
  · simp [PgUserRepository.list]
  · intro db input u db' hc
    by_cases hg : (db.rows.any fun r => r.email == input.email) = true
    · rw [PgUserRepository.create] at hc
      simp [hg] at hc
    · rw [PgUserRepository.create] at hc
      simp only [Bool.not_eq_true] at hg
      simp only [hg, Bool.false_eq_true, if_false, Prod.mk.injEq] at hc
      obtain ⟨-, hdb⟩ := hc
      subst hdb
      exact ⟨_, _, rfl, rfl, by
        simp [PgUserRepository.list, List.length_mergeSort]⟩
  · intro db
    obtain ⟨hperm, hsorted⟩ := mergeSort_desc_by_key Product.created_at db.rows
    exact ⟨_, rfl, hperm, hsorted, by
      simp [List.length_mergeSort]⟩
  · simp [PgProductRepository.list]
  · intro db input p db' hc
    by_cases hg : (db.rows.any fun r => r.sku == input.sku) = true
    · rw [PgProductRepository.create] at hc
      simp [hg] at hc
    · rw [PgProductRepository.create] at hc
      simp only [Bool.not_eq_true] at hg
      simp only [hg, Bool.false_eq_true, if_false, Prod.mk.injEq] at hc
      obtain ⟨-, hdb⟩ := hc
      subst hdb
      exact ⟨_, _, rfl, rfl, by
        simp [PgProductRepository.list, List.length_mergeSort]⟩
  · intro db
    obtain ⟨hperm, hsorted⟩ := mergeSort_desc_by_key Order.created_at db.rows
    exact ⟨_, rfl, hperm, hsorted, by
      simp [List.length_mergeSort]⟩
  · simp [PgOrderRepository.list]
  · intro db input o db' hc
    by_cases hg : (db.userIds.any fun uid => uid == input.user_id) = true
    · rw [PgOrderRepository.create] at hc
      simp only [hg, if_true, Prod.mk.injEq] at hc
      obtain ⟨-, hdb⟩ := hc
      subst hdb
      exact ⟨_, _, rfl, rfl, by
        simp [PgOrderRepository.list, List.length_mergeSort]⟩
    · rw [PgOrderRepository.create] at hc
      simp [hg] at hc

/-- C5 witness: creating a user in the empty store makes `list` return one
entry. -/
theorem list_sorted_desc_witness :
    ∃ l l', PgUserRepository.list ⟨[], 0, 0⟩ = .ok l ∧
      PgUserRepository.list ⟨[⟨0, "a@b.com", "Alice", 0, 0⟩], 0, 1⟩ =
        .ok l' ∧
      l'.length = l.length + 1 :=
  list_sorted_desc.1.2.2 ⟨[], 0, 0⟩ ⟨"a@b.com", "Alice"⟩
    ⟨0, "a@b.com", "Alice", 0, 0⟩ ⟨[⟨0, "a@b.com", "Alice", 0, 0⟩], 0, 1⟩
    rfl

/-- C7 counterexample: when the INSERT's fetch succeeds but the returned
row lacks the expected columns (an empty row here), `create` neither
returns `Ok` nor a `RepoError`: `row.get::<Uuid, _>("id")` is the
panicking accessor (`try_get(..).unwrap()`), modelled as `none` — the
process aborts, refuting the claim at this storage outcome. -/
theorem users_create_panics_on_malformed_row :
    UsersRepo.createFetched (Except.ok []) = none ∧
    ¬ ∃ res, UsersRepo.createFetched (Except.ok []) = some res := by
  refine ⟨rfl, ?_⟩
  rintro ⟨res, h⟩
  rw [show UsersRepo.createFetched (Except.ok []) = none from rfl] at h
  cases h

/-- Helper: decoding a list of rows succeeds when every row decodes. -/
theorem collectRows_total {α : Type} (dec : PgRow → Option α)
    (rows : List PgRow) (h : ∀ row ∈ rows, (dec row).isSome = true) :
    ∃ us, collectRows dec rows = some us := by
  induction rows with
  | nil => exact ⟨[], rfl⟩
  | cons row rest ih =>
    obtain ⟨u, hu⟩ :=
      Option.isSome_iff_exists.mp (h row (List.mem_cons_self row rest))
    obtain ⟨us, hus⟩ := ih fun x hx => h x (List.mem_cons_of_mem row hx)
    exact ⟨u :: us, by simp [collectRows, hu, hus]⟩

/-- C7 amended: for every input and every storage outcome whose fetched
rows are well-formed (each expected column present with its expected
type), every operation — `create`, `get`, `update`, `list`, `delete`, for
users, products and orders — terminates with `Ok` or a typed `RepoError`:
every storage-layer failure funnels through `map_sqlx_err`, and `delete`
(which decodes no row) never panics on any outcome; only undecodable row
contents escape the typed error (by panicking). -/
theorem ops_total_on_wellformed_rows :
    ((∀ fetched : Except SqlxError PgRow,
        (∀ row, fetched = .ok row → (decodeUserRow row).isSome = true) →
        ∃ res, UsersRepo.createFetched fetched = some res) ∧
      (∀ fetched : Except SqlxError PgRow,
        (∀ row, fetched = .ok row → (decodeUserRow row).isSome = true) →
        ∃ res, UsersRepo.getFetched fetched = some res) ∧
      (∀ fetched : Except SqlxError PgRow,
        (∀ row, fetched = .ok row → (decodeUserRow row).isSome = true) →
        ∃ res, UsersRepo.updateFetched fetched = some res) ∧
      (∀ fetched : Except SqlxError (List PgRow),
        (∀ rows, fetched = .ok rows →
          ∀ row ∈ rows, (decodeUserRow row).isSome = true) →
        ∃ res, UsersRepo.listFetched fetched = some res) ∧
      (∀ executed : Except SqlxError Nat,
        ∃ res, UsersRepo.deleteExecuted executed = some res)) ∧
    ((∀ fetched : Except SqlxError PgRow,
        (∀ row, fetched = .ok row → (decodeProductRow row).isSome = true) →
        ∃ res, ProductsRepo.createFetched fetched = some res) ∧
      (∀ fetched : Except SqlxError PgRow,
        (∀ row, fetched = .ok row → (decodeProductRow row).isSome = true) →
        ∃ res, ProductsRepo.getFetched fetched = some res) ∧
      (∀ fetched : Except SqlxError PgRow,
        (∀ row, fetched = .ok row → (decodeProductRow row).isSome = true) →
        ∃ res, ProductsRepo.updateFetched fetched = some res) ∧
      (∀ fetched : Except SqlxError (List PgRow),
        (∀ rows, fetched = .ok rows →
          ∀ row ∈ rows, (decodeProductRow row).isSome = true) →
        ∃ res, ProductsRepo.listFetched fetched = some res) ∧
      (∀ executed : Except SqlxError Nat,
        ∃ res, ProductsRepo.deleteExecuted executed = some res)) ∧
    ((∀ fetched : Except SqlxError PgRow,
        (∀ row, fetched = .ok row → (decodeOrderRow row).isSome = true) →
        ∃ res, OrdersRepo.createFetched fetched = some res) ∧
      (∀ fetched : Except SqlxError PgRow,
        (∀ row, fetched = .ok row → (decodeOrderRow row).isSome = true) →
        ∃ res, OrdersRepo.getFetched fetched = some res) ∧
      (∀ fetched : Except SqlxError PgRow,
        (∀ row, fetched = .ok row → (decodeOrderRow row).isSome = true) →
        ∃ res, OrdersRepo.updateFetched fetched = some res) ∧
      (∀ fetched : Except SqlxError (List PgRow),
        (∀ rows, fetched = .ok rows →
          ∀ row ∈ rows, (decodeOrderRow row).isSome = true) →
        ∃ res, OrdersRepo.listFetched fetched = some res) ∧
      (∀ executed : Except SqlxError Nat,
        ∃ res, OrdersRepo.deleteExecuted executed = some res)) := by
  refine ⟨⟨?_, ?_, ?_, ?_, ?_⟩, ⟨?_, ?_, ?_, ?_, ?_⟩,
    ⟨?_, ?_, ?_, ?_, ?_⟩⟩
  all_goals
    first
    | -- single-row operations: create/get/update of each resource
      (intro fetched hwf
       rcases fetched with e | row
       · exact ⟨_, rfl⟩
       · obtain ⟨u, hu⟩ := Option.isSome_iff_exists.mp (hwf row rfl)
         exact ⟨.ok u, by
           simp [UsersRepo.createFetched, UsersRepo.getFetched,
             UsersRepo.updateFetched, ProductsRepo.createFetched,
             ProductsRepo.getFetched, ProductsRepo.updateFetched,
             OrdersRepo.createFetched, OrdersRepo.getFetched,
             OrdersRepo.updateFetched, hu]⟩)
    | -- list of each resource
      (intro fetched hwf
       rcases fetched with e | rows
       · exact ⟨_, rfl⟩
       · obtain ⟨us, hus⟩ := collectRows_total _ rows (hwf rows rfl)
         exact ⟨.ok us, by
           simp [UsersRepo.listFetched, ProductsRepo.listFetched,
             OrdersRepo.listFetched, hus]⟩)
    | -- delete of each resource: total on every outcome
      (intro executed
       rcases executed with e | n
       · exact ⟨_, rfl⟩
       · by_cases hn : n = 0
         · exact ⟨.error RepoError.NotFound, by
             simp [UsersRepo.deleteExecuted, ProductsRepo.deleteExecuted,
               OrdersRepo.deleteExecuted, hn]⟩
         · exact ⟨.ok (), by
             simp [UsersRepo.deleteExecuted, ProductsRepo.deleteExecuted,
               OrdersRepo.deleteExecuted, hn]⟩)

/-- C7 witness: a fully-populated users row decodes, so `create` on that
outcome returns a result instead of panicking; `delete` returns a result
on a plain affected-count outcome. -/
theorem ops_total_on_wellformed_rows_witness :
    (∃ res, UsersRepo.createFetched (Except.ok
      [("id", PgValue.uuid 1), ("email", PgValue.text "a@b.com"),
       ("name", PgValue.text "Alice"),
       ("created_at", PgValue.timestamptz 0),
       ("updated_at", PgValue.timestamptz 0)]) = some res) ∧
    (∃ res, UsersRepo.deleteExecuted (Except.ok 1) = some res) :=
  ⟨ops_total_on_wellformed_rows.1.1 _ (by
      intro row h
      injection h with h'
      subst h'
      decide),
   ops_total_on_wellformed_rows.1.2.2.2.2 (Except.ok 1)⟩

end Asgard
